import Mathlib

/-!
Verification of the `crypto::kdf` module of kalix-systems/sodiumoxide
(src/crypto/kdf/mod.rs): the subkey-derivation `Session`, its
`SessionBuilder`, and the hand-written serde codec for `Session`.

Shallow embedding conventions:
* Byte buffers (`&[u8]`, `[u8; N]`) are `List Nat` whose elements are the
  byte values; fixed lengths appear as hypotheses where a theorem needs them.
* `u64` arithmetic is `Nat` with explicit `% 2^64` where Rust would wrap
  (release-profile wrapping semantics for `+=`/`-`).
* The external libsodium derivation primitive
  `crypto_kdf_blake2b_derive_from_key` is an oracle parameter
  `derive : Nat → Nat → List Nat → List Nat → Int × List Nat` taking the
  output length, index, context bytes and key bytes, and returning the C
  return code together with the bytes it wrote through the output pointer.
* Fallible operations return `Option`/`Except`, mirroring the source.
-/

/-- Minimum number of bytes in a derived key.  The source binds this to
`ffi::crypto_kdf_blake2b_BYTES_MIN`; the numeric value 16 is libsodium's
`crypto_kdf_blake2b_BYTES_MIN`. -/
def DERIVED_KEY_BYTES_MIN : Nat := 16

/-- Maximum number of bytes in a derived key.  The source binds this to
`ffi::crypto_kdf_blake2b_BYTES_MAX`; the numeric value 64 is libsodium's
`crypto_kdf_blake2b_BYTES_MAX`. -/
def DERIVED_KEY_BYTES_MAX : Nat := 64

/-- Number of bytes in a `MasterKey` (libsodium's
`crypto_kdf_blake2b_KEYBYTES` = 32). -/
def MASTER_KEY_BYTES : Nat := 32

/-- Number of bytes in a `Context` (libsodium's
`crypto_kdf_blake2b_CONTEXTBYTES` = 8). -/
def CONTEXT_BYTES : Nat := 8

/-- Modulus of Rust's `u64`. -/
def U64_MOD : Nat := 2 ^ 64

/-- A session for generating keys: `struct Session { index: u64,
context: Context, key: MasterKey }`.  `Context` and `MasterKey` are the
`new_type!` fixed-length byte wrappers; they are embedded as raw byte
lists, with length facts supplied as hypotheses where relevant. -/
structure Session where
  index : Nat
  context : List Nat
  key : List Nat
deriving DecidableEq, Repr

/-- The full observable outcome of one `generate_next_key` call: the
returned `Option<u64>`, the session after the call (`&mut self`), and the
contents of the caller's buffer after the call (`&mut [u8]`). -/
structure GenResult where
  ret : Option Nat
  session : Session
  buffer : List Nat
deriving DecidableEq, Repr

/-- `Session::generate_next_key` (src/crypto/kdf/mod.rs lines 54-71).

The derivation primitive is the oracle `derive len index context key`,
returning the C return code and the bytes it wrote into the output buffer.
Faithful points: the length check happens before the primitive is invoked
and before any mutation; `self.index += 1` runs unconditionally after the
primitive call (u64 wrapping, release semantics); on return code 0 the
function returns `Some(self.index - 1)` (u64 wrapping subtraction of the
already-incremented index), otherwise `None`. -/
def Session.generate_next_key (derive : Nat → Nat → List Nat → List Nat → Int × List Nat)
    (s : Session) (buffer : List Nat) : GenResult :=
  let len := buffer.length
  if len < DERIVED_KEY_BYTES_MIN ∨ DERIVED_KEY_BYTES_MAX < len then
    ⟨none, s, buffer⟩
  else
    let r := derive len s.index s.context s.key
    let s1 : Session := { s with index := (s.index + 1) % U64_MOD }
    if r.1 = 0 then
      ⟨some ((s1.index + (U64_MOD - 1)) % U64_MOD), s1, r.2⟩
    else
      ⟨none, s1, r.2⟩

/-- `struct SessionBuilder { index: Option<u64>, context: Option<Context>,
key: Option<MasterKey> }`. -/
structure SessionBuilder where
  index : Option Nat
  context : Option (List Nat)
  key : Option (List Nat)
deriving DecidableEq, Repr

/-- `SessionBuilder::new`. -/
def SessionBuilder.new : SessionBuilder := ⟨none, none, none⟩

/-- `SessionBuilder::index` setter (renamed: `index` is the field
projection in Lean).  Overrides a previously set value. -/
def SessionBuilder.setIndex (b : SessionBuilder) (i : Nat) : SessionBuilder :=
  { b with index := some i }

/-- `SessionBuilder::context` setter (renamed: `context` is the field
projection in Lean). -/
def SessionBuilder.setContext (b : SessionBuilder) (c : List Nat) : SessionBuilder :=
  { b with context := some c }

/-- `SessionBuilder::key` setter (renamed: `key` is the field projection
in Lean). -/
def SessionBuilder.setKey (b : SessionBuilder) (k : List Nat) : SessionBuilder :=
  { b with key := some k }

/-- `SessionBuilder::build` (lines 121-135): missing index defaults to 0
(`unwrap_or_else(|| 0)`), missing context defaults to `Context([0; 8])`
(the literal 8 is the source's), missing key makes the whole call return
`None` (the `?` on `maybe_key.as_ref()`). -/
def SessionBuilder.build (b : SessionBuilder) : Option Session :=
  let index := b.index.getD 0
  let context := b.context.getD (List.replicate 8 0)
  match b.key with
  | none => none
  | some key => some { index := index, context := context, key := key }

/-- `SessionBuilder::build_full` (lines 141-151): computes
`outs = [index.is_none(), context.is_none(), key.is_none()]`, fails with
`Err(outs)` if any field is absent, otherwise returns
`Ok(self.build().unwrap())` — which in that branch is the session made of
the three set fields (`build_full_build_consistent` below checks the
unwrap is safe). -/
def SessionBuilder.build_full (b : SessionBuilder) : Except (List Bool) Session :=
  let outs := [b.index.isNone, b.context.isNone, b.key.isNone]
  match b.index, b.context, b.key with
  | none, _, _ => .error outs
  | _, none, _ => .error outs
  | _, _, none => .error outs
  | some i, some c, some k => .ok { index := i, context := c, key := k }

/- ------------------------------------------------------------------ -/
/- Serde codec for Session (src/crypto/kdf/mod.rs lines 154-233).      -/
/- ------------------------------------------------------------------ -/

/-- `const SESSION_TYPE_STRING: &str = stringify!(Session)`. -/
def SESSION_TYPE_STRING : String := "Session"

/-- `const SESSION_INDEX_STRING: &str = "index"`. -/
def SESSION_INDEX_STRING : String := "index"

/-- `const SESSION_CONTEXT_STRING: &str = "context"`. -/
def SESSION_CONTEXT_STRING : String := "context"

/-- `const SESSION_KEY_STRING: &str = "key"`. -/
def SESSION_KEY_STRING : String := "key"

/-- `const SESSION_FIELDS_ARRAY: &[&str] = &[SESSION_KEY_STRING,
SESSION_INDEX_STRING]` (line 158) — note: the source array really holds
only these two entries, in this order. -/
def SESSION_FIELDS_ARRAY : List String := [SESSION_KEY_STRING, SESSION_INDEX_STRING]

/-- A wire value of the structured-record serialization framework: the
codec stores a `u64` (the index) or a fixed-length byte string (context,
key). -/
inductive Value where
  | nat : Nat → Value
  | bytes : List Nat → Value
deriving DecidableEq, Repr

/-- The structured record a serde `Serializer` receives from
`Serialize for Session`: the struct name and declared field count passed
to `serialize_struct`, then the named fields passed to
`serialize_field`, in call order. -/
structure Record where
  name : String
  declaredLen : Nat
  fields : List (String × Value)
deriving DecidableEq, Repr

/-- `impl Serialize for Session` (lines 162-174):
`serialize_struct(SESSION_TYPE_STRING, 2)` followed by the three
`serialize_field` calls for index, context, key, in that order. -/
def Session.serialize (s : Session) : Record :=
  { name := SESSION_TYPE_STRING
    declaredLen := 2
    fields := [(SESSION_INDEX_STRING, Value.nat s.index),
               (SESSION_CONTEXT_STRING, Value.bytes s.context),
               (SESSION_KEY_STRING, Value.bytes s.key)] }

/-- Deserialization errors produced by the visitor through the serde
error constructors it calls: `invalid_length`, `unknown_field` (with the
expected-fields list it is handed), `missing_field`, and a value-level
type/shape error from a failed `next_value` call. -/
inductive DeError where
  | invalidLength : Nat → DeError
  | unknownField : String → List String → DeError
  | missingField : String → DeError
  | invalidValue : String → DeError
deriving DecidableEq, Repr

/-- Modelled from the spec: `map.next_value::<u64>()` for the index field.
The `u64` deserialization itself lives in the serde framework (outside
this repository); per the spec the wire value must be an unsigned 64-bit
integer, so decoding succeeds exactly on integer values below `2^64`. -/
def decodeU64 : Value → Option Nat
  | Value.nat n => if n < U64_MOD then some n else none
  | Value.bytes _ => none

/-- Modelled from the spec: `map.next_value::<Context>()` /
`map.next_value::<MasterKey>()`.  The `new_type!` wrappers and their serde
impls are outside src; per the spec they are fixed-length byte sequences,
so decoding succeeds exactly on byte strings of the expected length. -/
def decodeBytes (len : Nat) : Value → Option (List Nat)
  | Value.nat _ => none
  | Value.bytes bs => if bs.length = len then some bs else none

/-- One iteration of the `for _ in 0..3` loop of `StructVisitor::visit_map`
(lines 196-212): pull the next map entry — reporting
`invalid_length(SESSION_FIELDS_ARRAY.len(), ..)` if the map is exhausted —
then dispatch on the field name, feeding the decoded value to the
corresponding builder setter, or fail with
`unknown_field(mapkey, SESSION_FIELDS_ARRAY)`. -/
def readField (b : SessionBuilder) :
    List (String × Value) → Except DeError (SessionBuilder × List (String × Value))
  | [] => .error (DeError.invalidLength SESSION_FIELDS_ARRAY.length)
  | (mapkey, v) :: rest =>
    if mapkey = SESSION_INDEX_STRING then
      match decodeU64 v with
      | some n => .ok (b.setIndex n, rest)
      | none => .error (DeError.invalidValue SESSION_INDEX_STRING)
    else if mapkey = SESSION_CONTEXT_STRING then
      match decodeBytes CONTEXT_BYTES v with
      | some c => .ok (b.setContext c, rest)
      | none => .error (DeError.invalidValue SESSION_CONTEXT_STRING)
    else if mapkey = SESSION_KEY_STRING then
      match decodeBytes MASTER_KEY_BYTES v with
      | some k => .ok (b.setKey k, rest)
      | none => .error (DeError.invalidValue SESSION_KEY_STRING)
    else
      .error (DeError.unknownField mapkey SESSION_FIELDS_ARRAY)

/-- The `map_err` closure of lines 213-228: name the first missing field
in the flag order index, context, key.  The final pattern models the
`panic!` arm, unreachable because `build_full` only errs with at least
one flag set. -/
def missingName : List Bool → String
  | true :: _ => SESSION_INDEX_STRING
  | _ :: true :: _ => SESSION_CONTEXT_STRING
  | _ :: _ :: true :: _ => SESSION_KEY_STRING
  | _ => "unreachable"

/-- `StructVisitor::visit_map` (lines 190-229): start from
`SessionBuilder::new()`, run the read-dispatch step three times over the
record's entries, then finish through `build_full`, mapping its missing
flags to a `missing_field` error. -/
def visit_map (entries : List (String × Value)) : Except DeError Session :=
  match readField SessionBuilder.new entries with
  | .error e => .error e
  | .ok (b1, r1) =>
    match readField b1 r1 with
    | .error e => .error e
    | .ok (b2, r2) =>
      match readField b2 r2 with
      | .error e => .error e
      | .ok (b3, _) =>
        match b3.build_full with
        | .ok s => .ok s
        | .error flags => .error (DeError.missingField (missingName flags))

/-- `impl Deserialize for Session` (lines 177-232): `deserialize_struct`
hands the record's entries to `StructVisitor.visit_map`.  (Entries beyond
the three the visitor consumes are left to the framework, which is outside
this repository.) -/
def Session.deserialize (entries : List (String × Value)) : Except DeError Session :=
  visit_map entries

/-- The `self.build().unwrap()` inside `build_full` is faithful: on the
all-fields-present branch, `build` returns exactly the session that
`build_full` returns. -/
theorem build_full_build_consistent (b : SessionBuilder) (i : Nat) (c k : List Nat)
    (hi : b.index = some i) (hc : b.context = some c) (hk : b.key = some k) :
    b.build = some { index := i, context := c, key := k } ∧
      b.build_full = .ok { index := i, context := c, key := k } := by
  constructor
  · simp [SessionBuilder.build, hi, hc, hk]
  · simp [SessionBuilder.build_full, hi, hc, hk]

/- ------------------------------------------------------------------ -/
/- Shared concrete fixtures for witnesses and counterexamples.         -/
/- ------------------------------------------------------------------ -/

/-- The numeric value of the `u64` modulus. -/
theorem U64_MOD_eq : U64_MOD = 18446744073709551616 := by norm_num [U64_MOD]

/-- All-zero context bytes. -/
def zeroContext : List Nat := List.replicate CONTEXT_BYTES 0

/-- All-zero master-key bytes. -/
def zeroKey : List Nat := List.replicate MASTER_KEY_BYTES 0

/-- A derivation oracle that always succeeds (return code 0) and fills
the buffer with 1-bytes. -/
def deriveOk : Nat → Nat → List Nat → List Nat → Int × List Nat :=
  fun len _ _ _ => (0, List.replicate len 1)

/-- A derivation oracle that always fails (nonzero return code). -/
def deriveFail : Nat → Nat → List Nat → List Nat → Int × List Nat :=
  fun len _ _ _ => (1, List.replicate len 0)

/-- A buffer of minimal valid length. -/
def buf16 : List Nat := List.replicate DERIVED_KEY_BYTES_MIN 0

/- ------------------------------------------------------------------ -/
/- C1                                                                  -/
/- ------------------------------------------------------------------ -/

/-- C1 counterexample: with a primitive that reports an error, a session
at index 5 with a valid 16-byte buffer comes back with index 6 — the
index advanced despite the failure (`self.index += 1` is unconditional),
and the return value is the same `none` the length check produces, not a
distinct backend-failure value.  The claim says the index would be left
unchanged at 5. -/
theorem generate_next_key_failure_advances_index_cex :
    (Session.generate_next_key deriveFail ⟨5, zeroContext, zeroKey⟩ buf16).session.index = 6 ∧
    (Session.generate_next_key deriveFail ⟨5, zeroContext, zeroKey⟩ buf16).ret = none := by
  decide

/-- C1 (amended): on any call that passes the length check, the index is
advanced by one (mod 2^64) regardless of whether the primitive succeeds
or fails; on primitive failure the call returns `none` — the same value
as the invalid-length failure, not a distinct one. -/
theorem generate_next_key_index_advance_unconditional
    (derive : Nat → Nat → List Nat → List Nat → Int × List Nat)
    (s : Session) (buffer : List Nat)
    (hmin : DERIVED_KEY_BYTES_MIN ≤ buffer.length)
    (hmax : buffer.length ≤ DERIVED_KEY_BYTES_MAX) :
    (Session.generate_next_key derive s buffer).session.index = (s.index + 1) % U64_MOD ∧
    ((derive buffer.length s.index s.context s.key).1 ≠ 0 →
      (Session.generate_next_key derive s buffer).ret = none) := by
  have hnot : ¬(buffer.length < DERIVED_KEY_BYTES_MIN ∨
      DERIVED_KEY_BYTES_MAX < buffer.length) := by omega
  unfold Session.generate_next_key
  simp only [hnot, if_false]
  constructor
  · split <;> rfl
  · intro hne
    simp only [hne, if_false]

/-- C1 witness: instantiates the amended theorem at a concrete failing
primitive and a session at index 5. -/
theorem generate_next_key_index_advance_unconditional_witness :
    (Session.generate_next_key deriveFail ⟨5, zeroContext, zeroKey⟩ buf16).session.index =
      (5 + 1) % U64_MOD ∧
    (Session.generate_next_key deriveFail ⟨5, zeroContext, zeroKey⟩ buf16).ret = none := by
  have h := generate_next_key_index_advance_unconditional deriveFail
    ⟨5, zeroContext, zeroKey⟩ buf16 (by decide) (by decide)
  exact ⟨h.1, h.2 (by decide)⟩

/- ------------------------------------------------------------------ -/
/- C4                                                                  -/
/- ------------------------------------------------------------------ -/

/-- C4: with a buffer shorter than `DERIVED_KEY_BYTES_MIN` or longer than
`DERIVED_KEY_BYTES_MAX`, `generate_next_key` returns `none` with no side
effects — the session (index included) and the buffer are exactly as
before, so any subsequent call behaves as if the failed call had never
happened (it resumes from the prior index). -/
theorem generate_next_key_invalid_length_no_side_effects
    (derive : Nat → Nat → List Nat → List Nat → Int × List Nat)
    (s : Session) (buffer : List Nat)
    (h : buffer.length < DERIVED_KEY_BYTES_MIN ∨ DERIVED_KEY_BYTES_MAX < buffer.length) :
    Session.generate_next_key derive s buffer = ⟨none, s, buffer⟩ ∧
    (∀ (derive2 : Nat → Nat → List Nat → List Nat → Int × List Nat) (buffer2 : List Nat),
      Session.generate_next_key derive2
          (Session.generate_next_key derive s buffer).session buffer2 =
        Session.generate_next_key derive2 s buffer2) := by
  have h1 : Session.generate_next_key derive s buffer = ⟨none, s, buffer⟩ := by
    unfold Session.generate_next_key
    simp only [h, if_true, if_pos]
  exact ⟨h1, fun derive2 buffer2 => by rw [h1]⟩

/-- C4 witness: a 3-byte buffer (below the minimum of 16) leaves a
session at index 5 untouched. -/
theorem generate_next_key_invalid_length_no_side_effects_witness :
    Session.generate_next_key deriveOk ⟨5, zeroContext, zeroKey⟩ [0, 0, 0] =
      ⟨none, ⟨5, zeroContext, zeroKey⟩, [0, 0, 0]⟩ :=
  (generate_next_key_invalid_length_no_side_effects deriveOk
    ⟨5, zeroContext, zeroKey⟩ [0, 0, 0] (Or.inl (by decide))).1

/- ------------------------------------------------------------------ -/
/- C5                                                                  -/
/- ------------------------------------------------------------------ -/

/-- C5: on a valid-length buffer, when the primitive succeeds (return
code 0) and the index does not overflow, `generate_next_key` fills the
buffer with the primitive's derived subkey, sets the index to `i + 1`,
and returns `some i` — the index that was just used, not the new one. -/
theorem generate_next_key_success_spec
    (derive : Nat → Nat → List Nat → List Nat → Int × List Nat)
    (s : Session) (buffer : List Nat)
    (hmin : DERIVED_KEY_BYTES_MIN ≤ buffer.length)
    (hmax : buffer.length ≤ DERIVED_KEY_BYTES_MAX)
    (hidx : s.index + 1 < U64_MOD)
    (hok : (derive buffer.length s.index s.context s.key).1 = 0) :
    Session.generate_next_key derive s buffer =
      ⟨some s.index, { s with index := s.index + 1 },
        (derive buffer.length s.index s.context s.key).2⟩ := by
  have hnot : ¬(buffer.length < DERIVED_KEY_BYTES_MIN ∨
      DERIVED_KEY_BYTES_MAX < buffer.length) := by omega
  have hu : U64_MOD = 18446744073709551616 := U64_MOD_eq
  unfold Session.generate_next_key
  simp only [hnot, if_false, hok, if_true, if_pos]
  have h1 : (s.index + 1) % U64_MOD = s.index + 1 := Nat.mod_eq_of_lt hidx
  have h2 : (s.index + 1 + (U64_MOD - 1)) % U64_MOD = s.index := by
    rw [hu]; rw [hu] at hidx; omega
  rw [h1, h2]

/-- C5 witness: a session at index 7, a succeeding primitive, a 16-byte
buffer: the buffer is filled with the derived bytes, the index becomes 8,
the call returns `some 7`. -/
theorem generate_next_key_success_spec_witness :
    Session.generate_next_key deriveOk ⟨7, zeroContext, zeroKey⟩ buf16 =
      ⟨some 7, ⟨8, zeroContext, zeroKey⟩, List.replicate 16 1⟩ := by
  have h := generate_next_key_success_spec deriveOk ⟨7, zeroContext, zeroKey⟩ buf16
    (by decide) (by decide) (by norm_num [U64_MOD]) (by decide)
  simpa [deriveOk, buf16, DERIVED_KEY_BYTES_MIN] using h

/- ------------------------------------------------------------------ -/
/- C6                                                                  -/
/- ------------------------------------------------------------------ -/

/-- C6 counterexample: a session whose index is `2^64 - 1` makes a
successful call (the call returns `some (2^64 - 1)`), and the index
silently wraps to 0 — there is no guard, refuting "the next successful
call does not silently wrap the index to 0". -/
theorem generate_next_key_index_wraps_at_max_cex :
    (Session.generate_next_key deriveOk
        ⟨U64_MOD - 1, zeroContext, zeroKey⟩ buf16).ret = some (U64_MOD - 1) ∧
    (Session.generate_next_key deriveOk
        ⟨U64_MOD - 1, zeroContext, zeroKey⟩ buf16).session.index = 0 := by
  constructor <;> decide

/-- C6 (amended): on every successful derivation the index advances by
exactly one as long as it is below `2^64 - 1`; at `2^64 - 1` the
unguarded `u64` increment silently wraps the index to 0 (release-profile
semantics; a debug build would abort on the overflow instead). -/
theorem generate_next_key_index_increment_wrap
    (derive : Nat → Nat → List Nat → List Nat → Int × List Nat)
    (s : Session) (buffer : List Nat)
    (hmin : DERIVED_KEY_BYTES_MIN ≤ buffer.length)
    (hmax : buffer.length ≤ DERIVED_KEY_BYTES_MAX)
    (hok : (derive buffer.length s.index s.context s.key).1 = 0) :
    (s.index + 1 < U64_MOD →
      (Session.generate_next_key derive s buffer).session.index = s.index + 1) ∧
    (s.index = U64_MOD - 1 →
      (Session.generate_next_key derive s buffer).session.index = 0) := by
  have hnot : ¬(buffer.length < DERIVED_KEY_BYTES_MIN ∨
      DERIVED_KEY_BYTES_MAX < buffer.length) := by omega
  have hu : U64_MOD = 18446744073709551616 := U64_MOD_eq
  unfold Session.generate_next_key
  simp only [hnot, if_false, hok, if_true, if_pos]
  constructor
  · intro hlt
    exact Nat.mod_eq_of_lt hlt
  · intro heq
    rw [heq, hu]

/-- C6 witness: instantiates the amended theorem at index 41 (below the
maximum), observing the index advance to 42. -/
theorem generate_next_key_index_increment_wrap_witness :
    (Session.generate_next_key deriveOk ⟨41, zeroContext, zeroKey⟩ buf16).session.index = 42 :=
  (generate_next_key_index_increment_wrap deriveOk ⟨41, zeroContext, zeroKey⟩ buf16
    (by decide) (by decide) (by decide)).1 (by norm_num [U64_MOD])

/- ------------------------------------------------------------------ -/
/- C7                                                                  -/
/- ------------------------------------------------------------------ -/

/-- C7: `build()` succeeds exactly when a key has been set, and on
success yields the session whose index is the set one (default 0), whose
context is the set one (default all-zero), and whose key is exactly the
set key — with no key it returns `none`, never a substituted all-zero
key. -/
theorem session_builder_build_lenient_spec (b : SessionBuilder) :
    b.build = b.key.map (fun k =>
      { index := b.index.getD 0
        context := b.context.getD (List.replicate CONTEXT_BYTES 0)
        key := k }) ∧
    (b.build.isSome ↔ b.key.isSome) := by
  constructor
  · cases hk : b.key <;> simp [SessionBuilder.build, hk, CONTEXT_BYTES]
  · cases hk : b.key <;> simp [SessionBuilder.build, hk]

/-- C7 witness: a builder with only a key set builds a session with
index 0 and all-zero context; a keyless builder fails. -/
theorem session_builder_build_lenient_spec_witness :
    SessionBuilder.build ⟨none, none, some zeroKey⟩ =
      some ⟨0, List.replicate CONTEXT_BYTES 0, zeroKey⟩ ∧
    SessionBuilder.build ⟨some 9, some zeroContext, none⟩ = none := by
  have h1 := (session_builder_build_lenient_spec ⟨none, none, some zeroKey⟩).1
  have h2 := (session_builder_build_lenient_spec ⟨some 9, some zeroContext, none⟩).1
  exact ⟨by simpa using h1, by simpa using h2⟩

/- ------------------------------------------------------------------ -/
/- C8                                                                  -/
/- ------------------------------------------------------------------ -/

/-- C8: `build_full()` succeeds exactly when index, context and key are
all explicitly set, returning the session assembled from them; otherwise
it fails with the flag triple `[index absent, context absent, key
absent]` in that order, each flag true exactly when the field is
absent. -/
theorem session_builder_build_full_strict_spec (b : SessionBuilder) :
    (∀ i c k, b.index = some i → b.context = some c → b.key = some k →
      b.build_full = .ok { index := i, context := c, key := k }) ∧
    (b.index.isNone ∨ b.context.isNone ∨ b.key.isNone →
      b.build_full = .error [b.index.isNone, b.context.isNone, b.key.isNone]) ∧
    (∀ s, b.build_full = .ok s →
      b.index = some s.index ∧ b.context = some s.context ∧ b.key = some s.key) := by
  refine ⟨?_, ?_, ?_⟩
  · intro i c k hi hc hk
    simp [SessionBuilder.build_full, hi, hc, hk]
  · intro h
    cases hi : b.index <;> cases hc : b.context <;> cases hk : b.key <;>
      simp_all [SessionBuilder.build_full]
  · intro s hs
    cases hi : b.index with
    | none => simp [SessionBuilder.build_full, hi] at hs
    | some i =>
      cases hc : b.context with
      | none => simp [SessionBuilder.build_full, hi, hc] at hs
      | some c =>
        cases hk : b.key with
        | none => simp [SessionBuilder.build_full, hi, hc, hk] at hs
        | some k =>
          simp only [SessionBuilder.build_full, hi, hc, hk, Except.ok.injEq] at hs
          subst hs
          exact ⟨rfl, rfl, rfl⟩

/-- C8 witness: a builder with only the key set fails with the flags
`[true, true, false]` — index and context missing, key present. -/
theorem session_builder_build_full_strict_spec_witness :
    SessionBuilder.build_full ⟨none, none, some zeroKey⟩ =
      .error [true, true, false] := by
  have h := (session_builder_build_full_strict_spec ⟨none, none, some zeroKey⟩).2.1
    (Or.inl rfl)
  simpa using h

/- ------------------------------------------------------------------ -/
/- C3                                                                  -/
/- ------------------------------------------------------------------ -/

/-- C3: serializing any session emits exactly three named fields, in the
canonical order index, context, key, carrying the session's three
components.  (The `serialize_struct` length hint the source passes is 2;
the hint is not part of the emitted field list, which this theorem is
about.) -/
theorem session_serialize_three_fields_canonical_order (s : Session) :
    (Session.serialize s).fields =
      [(SESSION_INDEX_STRING, Value.nat s.index),
       (SESSION_CONTEXT_STRING, Value.bytes s.context),
       (SESSION_KEY_STRING, Value.bytes s.key)] ∧
    (Session.serialize s).fields.map Prod.fst =
      [SESSION_INDEX_STRING, SESSION_CONTEXT_STRING, SESSION_KEY_STRING] ∧
    (Session.serialize s).fields.length = 3 := by
  exact ⟨rfl, rfl, rfl⟩

/- ------------------------------------------------------------------ -/
/- C2                                                                  -/
/- ------------------------------------------------------------------ -/

/-- C2: a record whose first field is the unrecognized name "nonce" is
rejected with an unknown-field error, but the expected-field list that
error carries is `SESSION_FIELDS_ARRAY = ["key", "index"]` — not the
canonical set `{index, context, key}` the visitor actually accepts: the
source's field array (line 158) omits `"context"`. -/
theorem deserialize_unknown_field_wrong_expected_set :
    Session.deserialize [("nonce", Value.nat 0)] =
      .error (DeError.unknownField "nonce" ["key", "index"]) ∧
    SESSION_FIELDS_ARRAY ≠
      [SESSION_INDEX_STRING, SESSION_CONTEXT_STRING, SESSION_KEY_STRING] ∧
    "context" ∉ SESSION_FIELDS_ARRAY := by
  refine ⟨rfl, by decide, by decide⟩

/- ------------------------------------------------------------------ -/
/- C9                                                                  -/
/- ------------------------------------------------------------------ -/

/-- An entry the read-dispatch step consumes without error: its name is
one of the three recognized field names and its value decodes at the type
that name demands. -/
def entryOk (e : String × Value) : Bool :=
  (e.1 == SESSION_INDEX_STRING && (decodeU64 e.2).isSome) ||
  (e.1 == SESSION_CONTEXT_STRING && (decodeBytes CONTEXT_BYTES e.2).isSome) ||
  (e.1 == SESSION_KEY_STRING && (decodeBytes MASTER_KEY_BYTES e.2).isSome)

/-- A consumable entry makes `readField` step to some builder and hand
back the remaining entries. -/
theorem readField_ok_of_entryOk (b : SessionBuilder) (e : String × Value)
    (rest : List (String × Value)) (h : entryOk e = true) :
    ∃ b1, readField b (e :: rest) = .ok (b1, rest) := by
  obtain ⟨k, v⟩ := e
  simp only [entryOk, Bool.or_eq_true, Bool.and_eq_true, beq_iff_eq,
    Option.isSome_iff_exists] at h
  rcases h with (⟨hk, x, hx⟩ | ⟨hk, x, hx⟩) | ⟨hk, x, hx⟩
  · subst hk
    exact ⟨b.setIndex x, by
      simp [readField, SESSION_INDEX_STRING, SESSION_CONTEXT_STRING,
        SESSION_KEY_STRING, hx]⟩
  · subst hk
    exact ⟨b.setContext x, by
      simp [readField, SESSION_INDEX_STRING, SESSION_CONTEXT_STRING,
        SESSION_KEY_STRING, hx]⟩
  · subst hk
    exact ⟨b.setKey x, by
      simp [readField, SESSION_INDEX_STRING, SESSION_CONTEXT_STRING,
        SESSION_KEY_STRING, hx]⟩

/-- Inversion for `readField`: a successful step consumed exactly the
head entry, and that entry was one of the three recognized fields with a
well-typed value, applied to the builder through the matching setter. -/
theorem readField_ok_cases (b b1 : SessionBuilder)
    (entries rest : List (String × Value))
    (h : readField b entries = .ok (b1, rest)) :
    ∃ e t, entries = e :: t ∧ rest = t ∧
      ((∃ n, e = (SESSION_INDEX_STRING, Value.nat n) ∧ n < U64_MOD ∧
          b1 = b.setIndex n) ∨
       (∃ c, e = (SESSION_CONTEXT_STRING, Value.bytes c) ∧
          c.length = CONTEXT_BYTES ∧ b1 = b.setContext c) ∨
       (∃ k, e = (SESSION_KEY_STRING, Value.bytes k) ∧
          k.length = MASTER_KEY_BYTES ∧ b1 = b.setKey k)) := by
  cases entries with
  | nil => simp [readField] at h
  | cons e t =>
    obtain ⟨k, v⟩ := e
    by_cases h1 : k = SESSION_INDEX_STRING
    · subst h1
      cases v with
      | bytes bs => simp [readField, decodeU64] at h
      | nat n =>
        by_cases hn : n < U64_MOD
        · have hr : readField b ((SESSION_INDEX_STRING, Value.nat n) :: t) =
              .ok (b.setIndex n, t) := by
            simp [readField, decodeU64, hn]
          rw [hr] at h
          simp only [Except.ok.injEq, Prod.mk.injEq] at h
          exact ⟨_, t, rfl, h.2.symm, Or.inl ⟨n, rfl, hn, h.1.symm⟩⟩
        · simp [readField, decodeU64, hn] at h
    · by_cases h2 : k = SESSION_CONTEXT_STRING
      · subst h2
        cases v with
        | nat n => simp [readField, h1, decodeBytes] at h
        | bytes bs =>
          by_cases hn : bs.length = CONTEXT_BYTES
          · have hr : readField b ((SESSION_CONTEXT_STRING, Value.bytes bs) :: t) =
                .ok (b.setContext bs, t) := by
              simp [readField, h1, decodeBytes, hn]
            rw [hr] at h
            simp only [Except.ok.injEq, Prod.mk.injEq] at h
            exact ⟨_, t, rfl, h.2.symm, Or.inr (Or.inl ⟨bs, rfl, hn, h.1.symm⟩)⟩
          · simp [readField, h1, decodeBytes, hn] at h
      · by_cases h3 : k = SESSION_KEY_STRING
        · subst h3
          cases v with
          | nat n => simp [readField, h1, h2, decodeBytes] at h
          | bytes bs =>
            by_cases hn : bs.length = MASTER_KEY_BYTES
            · have hr : readField b ((SESSION_KEY_STRING, Value.bytes bs) :: t) =
                  .ok (b.setKey bs, t) := by
                simp [readField, h1, h2, decodeBytes, hn]
              rw [hr] at h
              simp only [Except.ok.injEq, Prod.mk.injEq] at h
              exact ⟨_, t, rfl, h.2.symm, Or.inr (Or.inr ⟨bs, rfl, hn, h.1.symm⟩)⟩
            · simp [readField, h1, h2, decodeBytes, hn] at h
        · simp [readField, h1, h2, h3] at h

/-- C9 (amended): (1) a record with fewer than three fields, each of
which the visitor can consume (recognized name, well-typed value), fails
with the wrong-length error (reporting `SESSION_FIELDS_ARRAY.len()`,
i.e. 2); an unknown field name among the present entries instead fails
with the unknown-field error first.  (2) Whenever the strict builder
reports missing fields, the error surfaced names the first absent field
in the fixed priority order index > context > key.  (3) Deserialization
never defaults: any accepted session's index, context and key each came
verbatim from a named entry of the record.  (4) A three-field record
consisting of the field `index` three times over leaves context unset
and fails with the missing-field error naming `context`. -/
theorem visit_map_strict_routing_spec :
    (∀ entries : List (String × Value), entries.length < 3 →
        (∀ e ∈ entries, entryOk e = true) →
        visit_map entries = .error (DeError.invalidLength SESSION_FIELDS_ARRAY.length)) ∧
    (∀ (b : SessionBuilder) (flags : List Bool), b.build_full = .error flags →
        (b.index.isNone ∨ b.context.isNone ∨ b.key.isNone) ∧
        missingName flags =
          (if b.index.isNone then SESSION_INDEX_STRING
           else if b.context.isNone then SESSION_CONTEXT_STRING
           else SESSION_KEY_STRING)) ∧
    (∀ (entries : List (String × Value)) (s : Session), visit_map entries = .ok s →
        (SESSION_INDEX_STRING, Value.nat s.index) ∈ entries ∧
        (SESSION_CONTEXT_STRING, Value.bytes s.context) ∈ entries ∧
        (SESSION_KEY_STRING, Value.bytes s.key) ∈ entries) ∧
    visit_map [(SESSION_INDEX_STRING, Value.nat 0),
               (SESSION_INDEX_STRING, Value.nat 1),
               (SESSION_INDEX_STRING, Value.nat 2)] =
      .error (DeError.missingField SESSION_CONTEXT_STRING) := by
  refine ⟨?_, ?_, ?_, ?_⟩
  · intro entries hlen hall
    rcases entries with _ | ⟨e1, _ | ⟨e2, _ | ⟨e3, t⟩⟩⟩
    · rfl
    · obtain ⟨b1, hb1⟩ :=
        readField_ok_of_entryOk SessionBuilder.new e1 [] (hall e1 (by simp))
      simp only [visit_map, hb1]
      simp [readField]
    · obtain ⟨b1, hb1⟩ :=
        readField_ok_of_entryOk SessionBuilder.new e1 [e2] (hall e1 (by simp))
      obtain ⟨b2, hb2⟩ :=
        readField_ok_of_entryOk b1 e2 [] (hall e2 (by simp))
      simp only [visit_map, hb1]
      simp only [hb2]
      simp [readField]
    · simp only [List.length_cons] at hlen
      omega
  · intro b flags h
    cases hi : b.index <;> cases hc : b.context <;> cases hk : b.key <;>
      simp only [SessionBuilder.build_full, hi, hc, hk, Except.error.injEq] at h <;>
      first
      | exact Except.noConfusion h
      | (subst h
         exact ⟨by simp [hi, hc, hk], by simp [missingName, hi, hc, hk]⟩)
  · intro entries s hs
    cases hv1 : readField SessionBuilder.new entries with
    | error e => simp [visit_map, hv1] at hs
    | ok p1 =>
      obtain ⟨b1, r1⟩ := p1
      cases hv2 : readField b1 r1 with
      | error e => simp [visit_map, hv1, hv2] at hs
      | ok p2 =>
        obtain ⟨b2, r2⟩ := p2
        cases hv3 : readField b2 r2 with
        | error e => simp [visit_map, hv1, hv2, hv3] at hs
        | ok p3 =>
          obtain ⟨b3, r3⟩ := p3
          cases hbf : b3.build_full with
          | error flags => simp [visit_map, hv1, hv2, hv3, hbf] at hs
          | ok s0 =>
            have hs0 : s0 = s := by
              simp [visit_map, hv1, hv2, hv3, hbf] at hs
              exact hs
            subst hs0
            obtain ⟨f1, t1, he1, hr1, hc1⟩ := readField_ok_cases _ _ _ _ hv1
            subst he1
            subst hr1
            obtain ⟨f2, t2, he2, hr2, hc2⟩ := readField_ok_cases _ _ _ _ hv2
            subst he2
            subst hr2
            obtain ⟨f3, t3, he3, hr3, hc3⟩ := readField_ok_cases _ _ _ _ hv3
            subst he3
            subst hr3
            rcases hc1 with ⟨x1, hf1, hl1, hbb1⟩ | ⟨x1, hf1, hl1, hbb1⟩ | ⟨x1, hf1, hl1, hbb1⟩ <;>
              rcases hc2 with ⟨x2, hf2, hl2, hbb2⟩ | ⟨x2, hf2, hl2, hbb2⟩ | ⟨x2, hf2, hl2, hbb2⟩ <;>
              rcases hc3 with ⟨x3, hf3, hl3, hbb3⟩ | ⟨x3, hf3, hl3, hbb3⟩ | ⟨x3, hf3, hl3, hbb3⟩ <;>
              subst hf1 <;> subst hf2 <;> subst hf3 <;>
              subst hbb1 <;> subst hbb2 <;> subst hbb3 <;>
              simp only [SessionBuilder.new, SessionBuilder.setIndex,
                SessionBuilder.setContext, SessionBuilder.setKey,
                SessionBuilder.build_full] at hbf <;>
              first
              | exact Except.noConfusion hbf
              | (rw [Except.ok.injEq] at hbf
                 subst hbf
                 simp [SESSION_INDEX_STRING, SESSION_CONTEXT_STRING,
                   SESSION_KEY_STRING])
  · rfl

/-- C9 witness: a well-formed single-field record (`index` only) is
rejected with the wrong-length error carrying
`SESSION_FIELDS_ARRAY.len() = 2`. -/
theorem visit_map_strict_routing_spec_witness :
    visit_map [(SESSION_INDEX_STRING, Value.nat 1)] =
      .error (DeError.invalidLength 2) := by
  have h := visit_map_strict_routing_spec.1 [(SESSION_INDEX_STRING, Value.nat 1)]
    (by decide) (by decide)
  simpa using h

/- ------------------------------------------------------------------ -/
/- C10                                                                 -/
/- ------------------------------------------------------------------ -/

/-- C10: serializing any session (whose index fits in a `u64` and whose
context and key have their fixed lengths, as every Rust `Session` does by
construction) and deserializing the resulting record succeeds and
returns the very same session — so the decoded session's next
`generate_next_key` call is indistinguishable from the original's. -/
theorem serialize_deserialize_roundtrip (s : Session)
    (hidx : s.index < U64_MOD)
    (hctx : s.context.length = CONTEXT_BYTES)
    (hkey : s.key.length = MASTER_KEY_BYTES) :
    Session.deserialize (Session.serialize s).fields = .ok s ∧
    (∀ (derive : Nat → Nat → List Nat → List Nat → Int × List Nat)
        (buffer : List Nat) (s2 : Session),
      Session.deserialize (Session.serialize s).fields = .ok s2 →
      Session.generate_next_key derive s2 buffer =
        Session.generate_next_key derive s buffer) := by
  have hmain : Session.deserialize (Session.serialize s).fields = .ok s := by
    simp [Session.deserialize, Session.serialize, visit_map, readField,
      decodeU64, decodeBytes, hidx, hctx, hkey,
      SESSION_INDEX_STRING, SESSION_CONTEXT_STRING, SESSION_KEY_STRING,
      SessionBuilder.new, SessionBuilder.setIndex, SessionBuilder.setContext,
      SessionBuilder.setKey, SessionBuilder.build_full]
  refine ⟨hmain, ?_⟩
  intro derive buffer s2 h
  rw [hmain, Except.ok.injEq] at h
  rw [h]

/-- C10 witness: the spec's own example — index 42, a non-zero context,
a concrete key — round-trips exactly. -/
theorem serialize_deserialize_roundtrip_witness :
    Session.deserialize
        (Session.serialize ⟨42, [1, 2, 3, 4, 5, 6, 7, 8], List.replicate 32 7⟩).fields =
      .ok ⟨42, [1, 2, 3, 4, 5, 6, 7, 8], List.replicate 32 7⟩ :=
  (serialize_deserialize_roundtrip ⟨42, [1, 2, 3, 4, 5, 6, 7, 8], List.replicate 32 7⟩
    (by decide) (by decide) (by decide)).1

/-- C9 counterexample: a record with a single field — fewer than three
fields total — whose name is unrecognized fails with the unknown-field
error, not with the wrong-length error the claim promises for every
record of fewer than three fields. -/
theorem visit_map_short_record_unknown_field_cex :
    visit_map [("bogus", Value.nat 7)] =
      .error (DeError.unknownField "bogus" ["key", "index"]) := by
  rfl
